import Mathlib

/-!
Shallow embedding of the BodhiRAG hybrid retrieval engine
(`src/graph_rag/agent_router.py`, `src/graph_rag/vector_connector.py`,
`src/graph_rag/graph_connector.py`, `src/services/rag_service.py`,
`src/api/routes/chat.py`) and proofs about it.

Python strings are modelled as Lean `String`; Python float scores are
modelled as `ℚ`; Python `dict` results are modelled as structures with the
same field names; code that may raise is modelled with `Except`; calls into
the external stores (Neo4j, ChromaDB, the embedding model) are modelled as
oracle parameters.
-/

/- ---------------------------------------------------------------------
Python string primitives, modelled on `List Char` so that they reduce
in the kernel.  `pyLower` models `str.lower()` (the keyword tables in the
source are ASCII), `strContains hay pat` models Python `pat in hay`, and
`pyWords` models `str.split()` (split on whitespace runs, dropping empty
pieces).
--------------------------------------------------------------------- -/

def pyLower (s : String) : String := String.mk (s.data.map Char.toLower)

def leadsWith : List Char → List Char → Bool
  | [], _ => true
  | _ :: _, [] => false
  | a :: as, b :: bs => a == b && leadsWith as bs

def occursIn (pat : List Char) : List Char → Bool
  | [] => leadsWith pat []
  | b :: bs => leadsWith pat (b :: bs) || occursIn pat bs

def strContains (hay pat : String) : Bool := occursIn pat.data hay.data

def pyWords (s : String) : List String :=
  ((s.data.splitOnP Char.isWhitespace).filter (fun w => !w.isEmpty)).map String.mk

/- ---------------------------------------------------------------------
`agent_router.py`, class `HybridRAGAgent` (aliased `AgentRouter`).
--------------------------------------------------------------------- -/

/-- Keyword table `self.kg_query_patterns` (agent_router.py lines 28-32). -/
def kg_query_patterns : List String :=
  ["relationship", "effect", "cause", "impact", "influence",
   "how does", "what causes", "what affects", "mechanism",
   "interaction", "pathway", "network"]

/-- Keyword table `self.vs_query_patterns` (agent_router.py lines 34-37). -/
def vs_query_patterns : List String :=
  ["describe", "what is", "explain", "overview", "summary",
   "information about", "details about", "tell me about"]

/-- Test `any(pattern in query_lower for pattern in patterns)`. -/
def anyPatternIn (patterns : List String) (query_lower : String) : Bool :=
  patterns.any (fun p => strContains query_lower p)

/-- Embeds `HybridRAGAgent.classify_query_intent` (agent_router.py 39-53). -/
def classify_query_intent (query : String) : String :=
  let query_lower := pyLower query
  if anyPatternIn kg_query_patterns query_lower then "kg_primary"
  else if anyPatternIn vs_query_patterns query_lower then "vs_primary"
  else "hybrid"

/-- Entity dictionary `common_entities` (agent_router.py 127-132). -/
def common_entities : List String :=
  ["microgravity", "radiation", "bone loss", "bone", "muscle atrophy", "muscle",
   "oxidative stress", "stem cells", "immune system", "cardiovascular",
   "neurovestibular", "tissue regeneration", "gene expression", "space",
   "osteoporosis", "bone density", "calcium", "vitamin d"]

/-- Bigrams of consecutive words joined by a space, embedding the Python
comprehension over `words[i:i+2]` in `_extract_entities_from_query`. -/
def bigramsOf : List String → List String
  | a :: b :: rest => (a ++ " " ++ b) :: bigramsOf (b :: rest)
  | _ => []

/-- Embeds `HybridRAGAgent._extract_entities_from_query`
(agent_router.py 124-149). -/
def extract_entities_from_query (query : String) : List String :=
  let query_lower := pyLower query
  let found_entities := common_entities.filter (fun e => strContains query_lower e)
  let found_entities :=
    if found_entities.isEmpty then
      (bigramsOf (pyWords query_lower)).filter (fun pe => 5 < pe.length)
    else found_entities
  if found_entities.isEmpty then ["space biology"] else found_entities

/-- A relationship record as returned by
`KnowledgeGraphConnector.query_relationships` (graph_connector.py 155-177):
the Cypher `RETURN` aliases the columns `subject`, `relationship`, `object`,
`evidence`, `source`. -/
structure KGRel where
  subject : String
  relationship : String
  object : String
  evidence : String
  source : String
  deriving Repr, DecidableEq

/-- Chunk metadata stored with each vector record
(vector_connector.py 80-86). -/
structure VSMeta where
  source_title : String
  source_url : String
  doc_id : String
  chunk_id : String
  content_length : Nat
  deriving Repr, DecidableEq

/-- A formatted semantic-search hit (vector_connector.py 127-132). -/
structure VSDoc where
  content : String
  metadata : VSMeta
  distance : ℚ
  score : ℚ
  deriving Repr, DecidableEq

/-- The raw per-hit data of a ChromaDB query response: the source reads the
parallel arrays `documents[0]`, `metadatas[0]`, `distances[0]` at a common
index, modelled here as one list of records. -/
structure ChromaHit where
  content : String
  metadata : VSMeta
  distance : ℚ
  deriving Repr, DecidableEq

/-- Oracle for `self.collection.query` in `semantic_search`: the external
vector store either answers or raises. -/
def ChromaOracle : Type := String → Nat → Except String (List ChromaHit)

/-- Embeds `VectorStoreConnector.semantic_search` (vector_connector.py
107-138): formats each hit with `score = 1 - distance`, and returns `[]`
if the store call raises. -/
def semantic_search (store : ChromaOracle) (query : String) (n_results : Nat) :
    List VSDoc :=
  match store query n_results with
  | .error _ => []
  | .ok hits =>
      hits.map (fun h =>
        { content := h.content, metadata := h.metadata,
          distance := h.distance, score := 1 - h.distance })

/-- Oracle for `kg_connector.query_relationships`: the external graph store
either answers for an entity or raises. -/
def KGOracle : Type := String → Except String (List KGRel)

/-- The loop of `execute_kg_retrieval`: extend `kg_results` entity by
entity; any raise aborts the whole loop (the `try` wraps the loop). -/
def collect_relationships (kg : KGOracle) : List String → Except String (List KGRel)
  | [] => .ok []
  | e :: es =>
    match kg e with
    | .error m => .error m
    | .ok rs =>
      match collect_relationships kg es with
      | .error m => .error m
      | .ok rest => .ok (rs ++ rest)

/-- Embeds `HybridRAGAgent.execute_kg_retrieval` (agent_router.py 55-72):
on any exception the whole retrieval degrades to `[]`. -/
def execute_kg_retrieval (kg : KGOracle) (query : String) : List KGRel :=
  match collect_relationships kg (extract_entities_from_query query) with
  | .ok rs => rs
  | .error _ => []

/-- Oracle for `vs_connector.semantic_search` as called by the router;
the call may raise. -/
def VSOracle : Type := String → Nat → Except String (List VSDoc)

/-- Embeds `HybridRAGAgent.execute_vs_retrieval` (agent_router.py 74-82):
on any exception the retrieval degrades to `[]`. -/
def execute_vs_retrieval (vs : VSOracle) (query : String) (n_results : Nat := 5) :
    List VSDoc :=
  match vs query n_results with
  | .ok rs => rs
  | .error _ => []

/-- Renders the numbered relationship lines of `kg_context`
(agent_router.py 156-159), starting from index `i` (Python `enumerate`
starts at 1). -/
def kgContextItems : Nat → List KGRel → String
  | _, [] => ""
  | i, rel :: rest =>
    (toString i ++ ". " ++ rel.subject ++ " → " ++ rel.relationship ++ " → "
        ++ rel.object ++ "\n"
      ++ (if rel.evidence ≠ "" then
            "   Evidence: " ++ rel.evidence.take 100 ++ "...\n"
          else ""))
      ++ kgContextItems (i + 1) rest

/-- The `kg_context` string built in `generate_answer`
(agent_router.py 153-159); `[:5]` keeps at most the top five items. -/
def kg_context (kg_results : List KGRel) : String :=
  if kg_results.isEmpty then ""
  else "KEY RELATIONSHIPS:\n" ++ kgContextItems 1 (kg_results.take 5)

/-- Renders the numbered document lines of `vs_context`
(agent_router.py 164-168). -/
def vsContextItems : Nat → List VSDoc → String
  | _, [] => ""
  | i, doc :: rest =>
    (toString i ++ ". " ++ doc.content.take 200 ++ "...\n"
      ++ (if doc.metadata.source_title ≠ "" then
            "   Source: " ++ doc.metadata.source_title ++ "\n"
          else ""))
      ++ vsContextItems (i + 1) rest

/-- The `vs_context` string built in `generate_answer`
(agent_router.py 161-168); `[:3]` keeps at most the top three items. -/
def vs_context (vs_results : List VSDoc) : String :=
  if vs_results.isEmpty then ""
  else "RESEARCH CONTEXT:\n" ++ vsContextItems 1 (vs_results.take 3)

/-- Embeds `HybridRAGAgent.generate_answer` (agent_router.py 150-197):
four template branches keyed on which result lists are non-empty. -/
def generate_answer (query : String) (kg_results : List KGRel)
    (vs_results : List VSDoc) : String :=
  let kc := kg_context kg_results
  let vc := vs_context vs_results
  if !kg_results.isEmpty && !vs_results.isEmpty then
    "Based on NASA space biology research:\n\n" ++ kc ++ "\n\n" ++ vc
      ++ "\n\nResearch indicates that " ++ pyLower query
      ++ " involves complex biological mechanisms that are actively being studied for space missions."
  else if !kg_results.isEmpty then
    "Based on established relationships in space biology:\n\n" ++ kc
      ++ "\n\nThese relationships help explain the mechanisms behind "
      ++ pyLower query ++ " in microgravity environments."
  else if !vs_results.isEmpty then
    "Based on NASA research publications:\n\n" ++ vc
      ++ "\n\nThe literature suggests that " ++ pyLower query
      ++ " is an important area of investigation for long-duration spaceflight."
  else
    "I couldn\x27t find specific information about \x27" ++ query
      ++ "\x27 in the NASA space biology knowledge base. This might be an emerging research area."

/-- The `retrieval_stats` sub-dict of a routed result
(agent_router.py 119-122). -/
structure RetrievalStats where
  kg_relationships : Nat
  vs_documents : Nat
  deriving Repr, DecidableEq

/-- The result dict of `route_query` (agent_router.py 113-123). -/
structure RoutedResult where
  query : String
  query_type : String
  kg_results : List KGRel
  vs_results : List VSDoc
  final_answer : String
  retrieval_stats : RetrievalStats
  deriving Repr, DecidableEq

/-- The error kind the spec demands for contradictory flags; carried in the
`Except` codomain of `route_query` so that raising versus returning is
visible in the embedding. -/
inductive RouteError where
  | validationError (msg : String)
  deriving Repr, DecidableEq

/-- Embeds `HybridRAGAgent.route_query` (agent_router.py 85-123).  The body
contains no `raise`, so every path ends in `.ok`. -/
def route_query (kg : KGOracle) (vs : VSOracle) (query : String)
    (use_kg use_vector : Bool) : Except RouteError RoutedResult :=
  let query_type :=
    if use_kg && !use_vector then "kg_primary"
    else if use_vector && !use_kg then "vs_primary"
    else classify_query_intent query
  let kg_results := if use_kg then execute_kg_retrieval kg query else []
  let vs_results := if use_vector then execute_vs_retrieval vs query 5 else []
  .ok { query := query
        query_type := query_type
        kg_results := kg_results
        vs_results := vs_results
        final_answer := generate_answer query kg_results vs_results
        retrieval_stats :=
          { kg_relationships := kg_results.length
            vs_documents := vs_results.length } }

/- ---------------------------------------------------------------------
`vector_connector.py`, `VectorStoreConnector.hybrid_search` (lines
140-173): fusion of semantic hits and knowledge-graph relationships.
--------------------------------------------------------------------- -/

/-- The `type` tag of a fused result. -/
inductive FuseTag where
  | semantic
  | kg_relationship
  deriving Repr, DecidableEq

/-- The `metadata` of a fused result: semantic hits keep their chunk
metadata; KG entries get a fresh two-field dict. -/
inductive FusedMeta where
  | ofVS (m : VSMeta)
  | ofKG (source_title evidence : String)
  deriving Repr, DecidableEq

/-- One entry of the `all_results` list built by `hybrid_search`. -/
structure FusedDoc where
  tag : FuseTag
  content : String
  metadata : FusedMeta
  score : ℚ
  deriving Repr, DecidableEq

/-- The semantic branch of the fusion loop (vector_connector.py 151-157):
the similarity score is weighted by 0.7. -/
def semFuse (r : VSDoc) : FusedDoc :=
  { tag := .semantic, content := r.content, metadata := .ofVS r.metadata,
    score := r.score * (7 / 10) }

/-- The KG branch of the fusion loop (vector_connector.py 160-169): fixed
score 0.8.  The dicts produced by `query_relationships` carry the key
`source`, so `kg_result.get('source_title', '')` misses and yields `''`. -/
def kgFuse (k : KGRel) : FusedDoc :=
  { tag := .kg_relationship,
    content := k.subject ++ " " ++ k.relationship ++ " " ++ k.object,
    metadata := .ofKG "" k.evidence,
    score := 8 / 10 }

/-- The sort order of `all_results.sort(key=lambda x: x['score'],
reverse=True)`: `a` may stand before `b` iff `a`'s score is at least
`b`'s.  Python's sort is stable, and `List.insertionSort` below is the
stable sort for this relation. -/
def scoreGE (a b : FusedDoc) : Prop := b.score ≤ a.score

instance : DecidableRel scoreGE :=
  fun a b => inferInstanceAs (Decidable (b.score ≤ a.score))

instance : IsTotal FusedDoc scoreGE := ⟨fun a b => le_total b.score a.score⟩

instance : IsTrans FusedDoc scoreGE :=
  ⟨fun _ _ _ hab hbc => le_trans hbc hab⟩

/-- The fusion core of `hybrid_search` (vector_connector.py 147-173):
append the weighted semantic results, then the KG results, sort stably by
descending score and keep the first `n_results`. -/
def fuseResults (semantic_results : List VSDoc) (kg_results : List KGRel)
    (n_results : Nat) : List FusedDoc :=
  let all_results := semantic_results.map semFuse ++ kg_results.map kgFuse
  (all_results.insertionSort scoreGE).take n_results

/-- Embeds `VectorStoreConnector.hybrid_search` (vector_connector.py
140-173): semantic search asks the store for `n_results * 2` hits, then
fuses them with the supplied KG results. -/
def hybrid_search (store : ChromaOracle) (query : String)
    (kg_results : List KGRel) (n_results : Nat := 5) : List FusedDoc :=
  fuseResults (semantic_search store query (n_results * 2)) kg_results n_results

/- ---------------------------------------------------------------------
`graph_connector.py`, class `KnowledgeGraphConnector`.
--------------------------------------------------------------------- -/

/-- Embeds `KnowledgeGraphConnector._infer_entity_type`
(graph_connector.py 138-153). -/
def infer_entity_type (entity_name : String) : String :=
  let entity_lower := pyLower entity_name
  if ["microgravity", "radiation", "space", "environment"].any
      (fun w => strContains entity_lower w) then "Environment"
  else if ["mouse", "rat", "human", "arabidopsis", "drosophila"].any
      (fun w => strContains entity_lower w) then "Organism"
  else if ["bone", "muscle", "cell", "tissue", "gene"].any
      (fun w => strContains entity_lower w) then "Biological_Process"
  else if ["protein", "enzyme", "molecule", "dna", "rna"].any
      (fun w => strContains entity_lower w) then "Biomolecule"
  else if ["iss", "station", "facility", "location"].any
      (fun w => strContains entity_lower w) then "Location"
  else "Unknown"

/-- The `RelationshipTriple` pydantic schema
(data_ingestion/knowledge_extractor.py 17-22): exactly four fields, so the
`triple_data.get('source_title', '')` style lookups in `populate_graph`
all miss and yield `''`. -/
structure RelationshipTriple where
  subject : String
  relationship : String
  object : String
  evidence_span : String
  deriving Repr, DecidableEq

/-- An `Entity` node as written by the Cypher of `populate_graph`:
`MERGE` keyed on `name`, `SET` overwrites `entity_type` and
`last_updated`. -/
structure EntityRec where
  name : String
  entity_type : String
  last_updated : Nat
  deriving Repr, DecidableEq

/-- A `RELATES_TO` edge as written by the Cypher of `populate_graph`:
`MERGE` keyed on `(subject, relationship, object)`, `SET` overwrites the
evidence and source metadata, `confidence = 0.9`, `created_at`. -/
structure RelRec where
  subject_name : String
  rel_type : String
  object_name : String
  evidence : String
  source_title : String
  source_url : String
  doc_id : String
  confidence : ℚ
  created_at : Nat
  deriving Repr, DecidableEq

/-- The graph database state seen by `populate_graph` and the two count
queries it runs after the batch. -/
structure GraphStore where
  entities : List EntityRec
  rels : List RelRec
  deriving Repr, DecidableEq

/-- Cypher `MERGE (e:Entity {name: $name}) SET e.entity_type = $ty,
e.last_updated = timestamp()`: update every node matching the key, or
create the node if none matches. -/
def mergeEntity (now : Nat) (name ty : String) (es : List EntityRec) :
    List EntityRec :=
  if es.any (fun e => e.name == name) then
    es.map (fun e =>
      if e.name == name then { e with entity_type := ty, last_updated := now }
      else e)
  else es ++ [{ name := name, entity_type := ty, last_updated := now }]

/-- Whether an edge record matches the `MERGE` key
`(subject)-[r:RELATES_TO {relationship: $rel_type}]->(object)`. -/
def relKeyEq (t : RelationshipTriple) (r : RelRec) : Bool :=
  r.subject_name == t.subject && r.rel_type == t.relationship
    && r.object_name == t.object

/-- Cypher `MERGE (subject)-[r:RELATES_TO {relationship: $rel_type}]->
(object) SET r.evidence = ..., r.confidence = 0.9, r.created_at =
timestamp()`; the source metadata parameters are all `''` because
`RelationshipTriple` has no such fields. -/
def mergeRelationship (now : Nat) (t : RelationshipTriple) (rs : List RelRec) :
    List RelRec :=
  if rs.any (relKeyEq t) then
    rs.map (fun r =>
      if relKeyEq t r then
        { r with evidence := t.evidence_span, source_title := "",
                 source_url := "", doc_id := "", confidence := 9 / 10,
                 created_at := now }
      else r)
  else
    rs ++ [{ subject_name := t.subject, rel_type := t.relationship,
             object_name := t.object, evidence := t.evidence_span,
             source_title := "", source_url := "", doc_id := "",
             confidence := 9 / 10, created_at := now }]

/-- The effect of one successful `session.run(query, parameters)` in the
`populate_graph` loop (graph_connector.py 83-119): upsert the subject
entity, the object entity, then the relationship edge. -/
def applyTriple (now : Nat) (s : GraphStore) (t : RelationshipTriple) :
    GraphStore :=
  let es := mergeEntity now t.subject (infer_entity_type t.subject) s.entities
  let es := mergeEntity now t.object (infer_entity_type t.object) es
  { entities := es, rels := mergeRelationship now t s.rels }

/-- The report dict returned by `populate_graph`
(graph_connector.py 132-136). -/
structure PopulateReport where
  entities_created : Nat
  relationships_created : Nat
  triples_processed : Nat
  deriving Repr, DecidableEq

/-- The batch loop of `populate_graph` (graph_connector.py 73-123):
`ok t` models whether the external `session.run` succeeds for triple `t`
(a raise is caught by the per-triple `except`, which logs and
`continue`s, leaving the store unchanged for that triple). -/
def runBatch (ok : RelationshipTriple → Bool) (now : Nat) (s : GraphStore)
    (triples : List RelationshipTriple) : GraphStore :=
  triples.foldl (fun acc t => if ok t then applyTriple now acc t else acc) s

/-- Embeds `KnowledgeGraphConnector.populate_graph`
(graph_connector.py 61-136): run the batch loop, then the two count
queries read the entity and relationship totals back from the final
store state. -/
def populate_graph (ok : RelationshipTriple → Bool) (now : Nat)
    (s : GraphStore) (triples : List RelationshipTriple) :
    GraphStore × PopulateReport :=
  let s' := runBatch ok now s triples
  (s', { entities_created := s'.entities.length
         relationships_created := s'.rels.length
         triples_processed := triples.length })

/-- The parameter map passed to the variable-length traversal query of
`get_entity_network` (graph_connector.py 184-197): the Cypher pattern is
`(start:Entity {name: $entity_name})-[*1..$depth]-(connected)`. -/
structure EntityNetworkQuery where
  entity_name : String
  depth : Int
  deriving Repr, DecidableEq

/-- Embeds `KnowledgeGraphConnector.get_entity_network`
(graph_connector.py 179-198): the caller-supplied depth is forwarded to
the query parameters untouched. -/
def get_entity_network (entity_name : String) (depth : Int := 2) :
    EntityNetworkQuery :=
  { entity_name := entity_name, depth := depth }

/- ---------------------------------------------------------------------
`services/rag_service.py` and `api/routes/chat.py`: constructor wiring.
Python call arity is modelled explicitly: a call raises `TypeError` when
it passes fewer positional arguments than the callee's parameters without
defaults.
--------------------------------------------------------------------- -/

/-- A Python callable signature: its positional parameter names (after
`self`) and how many trailing parameters carry default values. -/
structure PyCallable where
  params : List String
  defaults : Nat
  deriving Repr, DecidableEq

/-- Number of parameters that a call must supply. -/
def requiredParams (c : PyCallable) : Nat := c.params.length - c.defaults

/-- Python call semantics for positional arguments: missing or surplus
arguments raise `TypeError`. -/
def callWithArgCount (c : PyCallable) (nargs : Nat) : Except String Unit :=
  if nargs < requiredParams c then .error "TypeError"
  else if c.params.length < nargs then .error "TypeError"
  else .ok ()

/-- Signature of `HybridRAGAgent.__init__(self, kg_connector,
vs_connector)` (agent_router.py 22-25): two required parameters, no
defaults; `AgentRouter` is an alias of `HybridRAGAgent`
(agent_router.py 237). -/
def AgentRouter_init_sig : PyCallable :=
  { params := ["kg_connector", "vs_connector"], defaults := 0 }

/-- Embeds `HybridRAGService.__init__` (rag_service.py 5-7): its body is
`self.agent = AgentRouter()` — a call with zero arguments. -/
def HybridRAGService_init : Except String Unit :=
  callWithArgCount AgentRouter_init_sig 0

/-- Embeds the module-level `rag_service = HybridRAGService()` executed
when `api/routes/chat.py` is imported (chat.py line 7). -/
def chat_module_import : Except String Unit :=
  HybridRAGService_init

/- ---------------------------------------------------------------------
Concrete oracles used by witnesses and counterexamples.
--------------------------------------------------------------------- -/

/-- A graph store that answers every entity query with no relationships. -/
def kgOracleEmpty : KGOracle := fun _ => .ok []

/-- A vector store that answers every search with no documents. -/
def vsOracleEmpty : VSOracle := fun _ _ => .ok []

/-- A vector store whose search always raises. -/
def vsOracleFail : VSOracle := fun _ _ => .error "semantic search failed"

/- ---------------------------------------------------------------------
Sample data and derived key functions used by the theorems below.
--------------------------------------------------------------------- -/

/-- Empty chunk metadata used in concrete store responses. -/
def meta0 : VSMeta :=
  { source_title := "", source_url := "", doc_id := "", chunk_id := "",
    content_length := 0 }

/-- A vector store returning a single hit at distance 2. -/
def chromaFar : ChromaOracle := fun _ _ => .ok [⟨"chunk", meta0, 2⟩]

/-- A vector store returning a single hit at distance 1/4. -/
def chromaNear : ChromaOracle := fun _ _ => .ok [⟨"chunk", meta0, 1 / 4⟩]

/-- The formatted hit produced for `chromaNear`. -/
def vsDocNear : VSDoc :=
  { content := "chunk", metadata := meta0, distance := 1 / 4, score := 3 / 4 }

/-- The tie-break property the fused output actually has: two entries with
equal scores never appear with a KG relationship strictly before a
semantic hit, because the loop appends semantic results first and the
sort is stable. -/
def tieVectorFirst (a b : FusedDoc) : Prop :=
  a.score = b.score →
    ¬ (a.tag = FuseTag.kg_relationship ∧ b.tag = FuseTag.semantic)

/-- A sample knowledge-graph relationship. -/
def kgRelSample : KGRel :=
  { subject := "microgravity", relationship := "causes", object := "bone loss",
    evidence := "e", source := "t" }

/-- A vector store returning one hit at distance -1/7, so that the
weighted semantic score `(1 - -(1/7)) * 0.7` exactly equals the fixed KG
score 0.8. -/
def chromaTie : ChromaOracle := fun _ _ => .ok [⟨"v", meta0, -(1 / 7)⟩]

/-- The formatted hit produced for `chromaTie`. -/
def dTie : VSDoc :=
  { content := "v", metadata := meta0, distance := -(1 / 7),
    score := 1 - -(1 / 7) }

/-- The identity keys of the entity nodes of a store (`e.name`). -/
def entityNames (es : List EntityRec) : List String := es.map EntityRec.name

/-- The identity keys of the relationship edges of a store. -/
def relKeys (rs : List RelRec) : List (String × String × String) :=
  rs.map (fun r => (r.subject_name, r.rel_type, r.object_name))

/-- The identity key a triple merges its edge under. -/
def tkey (t : RelationshipTriple) : String × String × String :=
  (t.subject, t.relationship, t.object)

/-- A sample triple for concrete batch runs. -/
def trSample : RelationshipTriple :=
  { subject := "Microgravity", relationship := "causes",
    object := "Bone Loss", evidence_span := "ev" }

/- ---------------------------------------------------------------------
Claim theorems: routing and classification.
--------------------------------------------------------------------- -/

/-- C4: `classify_query_intent` is deterministic and returns
`"kg_primary"` when the lower-cased query contains a relational keyword,
else `"vs_primary"` when it contains a descriptive keyword, else
`"hybrid"`; relational keywords are checked first; the query
`"What causes bone loss in space?"` classifies as `"kg_primary"` and
`"Describe the ISS"` as `"vs_primary"`. -/
theorem classify_query_intent_spec (q : String) :
    (anyPatternIn kg_query_patterns (pyLower q) = true →
        classify_query_intent q = "kg_primary")
    ∧ (anyPatternIn kg_query_patterns (pyLower q) = false →
        anyPatternIn vs_query_patterns (pyLower q) = true →
        classify_query_intent q = "vs_primary")
    ∧ (anyPatternIn kg_query_patterns (pyLower q) = false →
        anyPatternIn vs_query_patterns (pyLower q) = false →
        classify_query_intent q = "hybrid")
    ∧ classify_query_intent "What causes bone loss in space?" = "kg_primary"
    ∧ classify_query_intent "Describe the ISS" = "vs_primary" := by
  refine ⟨fun h => ?_, fun h1 h2 => ?_, fun h1 h2 => ?_, by decide, by decide⟩
  · simp [classify_query_intent, h]
  · simp [classify_query_intent, h1, h2]
  · simp [classify_query_intent, h1, h2]

/-- Witness for C4 at the concrete query `"Describe the ISS"`: its
lower-casing matches no relational keyword, and the classifier answers
`"vs_primary"`. -/
theorem classify_query_intent_spec_witness :
    classify_query_intent "Describe the ISS" = "vs_primary"
      ∧ anyPatternIn kg_query_patterns (pyLower "Describe the ISS") = false :=
  ⟨(classify_query_intent_spec "Describe the ISS").2.1 (by decide) (by decide),
   by decide⟩

/-- C1 counterexample: called with `use_kg = false` and
`use_vector = false`, `route_query` does not raise a validation error; it
returns a successful result whose result lists are both empty. -/
theorem route_query_both_false_cex :
    route_query kgOracleEmpty vsOracleEmpty
        "What causes bone loss in space?" false false =
      .ok { query := "What causes bone loss in space?"
            query_type := "kg_primary"
            kg_results := []
            vs_results := []
            final_answer :=
              generate_answer "What causes bone loss in space?" [] []
            retrieval_stats :=
              { kg_relationships := 0, vs_documents := 0 } } := rfl

/-- C1 amended: for every query and every pair of store oracles,
`route_query` with both flags false performs no retrieval and returns a
successful (`.ok`) result with empty knowledge-graph and vector result
lists and a query type taken from automatic classification — it never
raises a `ValidationError`. -/
theorem route_query_both_false (kg : KGOracle) (vs : VSOracle) (q : String) :
    route_query kg vs q false false =
      .ok { query := q
            query_type := classify_query_intent q
            kg_results := []
            vs_results := []
            final_answer := generate_answer q [] []
            retrieval_stats :=
              { kg_relationships := 0, vs_documents := 0 } } := rfl

/-- C5: if the vector store search raises while `route_query` is called
with both flags true, the call still returns a successful result whose
vector result list is empty, with graph retrieval unaffected. -/
theorem route_query_vs_error (kg : KGOracle) (vs : VSOracle) (q m : String)
    (h : vs q 5 = .error m) :
    ∃ r : RoutedResult, route_query kg vs q true true = .ok r
      ∧ r.vs_results = [] ∧ r.kg_results = execute_kg_retrieval kg q := by
  refine ⟨_, rfl, ?_, rfl⟩
  simp [execute_vs_retrieval, h]

/-- Witness for C5: a concrete always-raising vector store, queried
through `route_query` with both flags true. -/
theorem route_query_vs_error_witness :
    ∃ r : RoutedResult,
      route_query kgOracleEmpty vsOracleFail
          "What causes bone loss in space?" true true = .ok r
        ∧ r.vs_results = []
        ∧ r.kg_results =
            execute_kg_retrieval kgOracleEmpty "What causes bone loss in space?" :=
  route_query_vs_error kgOracleEmpty vsOracleFail
    "What causes bone loss in space?" "semantic search failed" rfl

/-- C7 counterexample: `get_entity_network` called with depth 100 puts
depth 100 into the traversal query parameters — nothing clamps it to 5. -/
theorem get_entity_network_no_clamp_cex :
    (get_entity_network "microgravity" 100).depth = 100
      ∧ ¬ (get_entity_network "microgravity" 100).depth ≤ 5 := by decide

/-- C7 amended: `get_entity_network` forwards the caller-supplied depth
into the variable-length traversal query unchanged; no clamping to a
maximum is applied, so the traversal bound is whatever the caller
passes. -/
theorem get_entity_network_depth_unclamped (e : String) (d : Int) :
    (get_entity_network e d).depth = d := rfl

/-- C10: constructing `HybridRAGService` raises `TypeError`, because its
constructor calls `AgentRouter()` with zero arguments while
`HybridRAGAgent.__init__` requires `kg_connector` and `vs_connector`;
the module-level `rag_service = HybridRAGService()` in the chat route
therefore raises at import time. -/
theorem service_constructor_type_error :
    HybridRAGService_init = .error "TypeError"
      ∧ chat_module_import = .error "TypeError" := ⟨rfl, rfl⟩

/- ---------------------------------------------------------------------
Claim C9: the answer synthesizer.
--------------------------------------------------------------------- -/

theorem append_ne_empty (s t : String) (hs : s ≠ "") : s ++ t ≠ "" := by
  intro h
  apply hs
  cases s with
  | mk d =>
    cases t with
    | mk e =>
      have h2 : d ++ e = ([] : List Char) := congrArg String.data h
      have h3 : d = [] := (List.append_eq_nil.mp h2).1
      subst h3
      rfl

theorem kg_context_take5 (kg : List KGRel) :
    kg_context (kg.take 5) = kg_context kg := by
  rcases kg with _ | ⟨a, l⟩
  · rfl
  · show kg_context (a :: l.take 4) = kg_context (a :: l)
    simp only [kg_context, List.isEmpty_cons]
    have h : ((a :: l.take 4).take 5 : List KGRel) = (a :: l).take 5 := by
      show a :: ((l.take 4).take 4) = a :: l.take 4
      rw [List.take_take]
      norm_num
    rw [h]

theorem vs_context_take3 (vs : List VSDoc) :
    vs_context (vs.take 3) = vs_context vs := by
  rcases vs with _ | ⟨a, l⟩
  · rfl
  · show vs_context (a :: l.take 2) = vs_context (a :: l)
    simp only [vs_context, List.isEmpty_cons]
    have h : ((a :: l.take 2).take 3 : List VSDoc) = (a :: l).take 3 := by
      show a :: ((l.take 2).take 2) = a :: l.take 2
      rw [List.take_take]
      norm_num
    rw [h]

/-- C9: `generate_answer` is a pure function of its three arguments whose
output depends on at most the first five graph results and first three
vector results; its four template branches are keyed on which result lists
are non-empty; the answer text is never the empty string in any branch;
and with both result lists empty it returns the fixed
no-information-found template applied to the query. -/
theorem generate_answer_spec (q : String) (kg : List KGRel)
    (vs : List VSDoc) :
    generate_answer q kg vs = generate_answer q (kg.take 5) (vs.take 3)
    ∧ generate_answer q kg vs ≠ ""
    ∧ generate_answer q [] [] =
        "I couldn\x27t find specific information about \x27" ++ q
          ++ "\x27 in the NASA space biology knowledge base. This might be an emerging research area." := by
  refine ⟨?_, ?_, rfl⟩
  · have h1 : (kg.take 5).isEmpty = kg.isEmpty := by rcases kg <;> rfl
    have h2 : (vs.take 3).isEmpty = vs.isEmpty := by rcases vs <;> rfl
    simp only [generate_answer, kg_context_take5, vs_context_take3, h1, h2]
  · rcases kg with _ | ⟨k, kg'⟩ <;> rcases vs with _ | ⟨v, vs'⟩ <;>
      simp only [generate_answer, List.isEmpty_cons, List.isEmpty_nil,
        Bool.not_true, Bool.not_false, Bool.and_self, Bool.and_true,
        Bool.and_false, Bool.true_and, Bool.false_and, if_true, if_false,
        ite_true, ite_false] <;>
      repeat' apply append_ne_empty
    all_goals decide

/- ---------------------------------------------------------------------
Claims C8 and C3: retrieval scores and fusion.
--------------------------------------------------------------------- -/

/-- Decomposition of membership in a fused result list: every fused entry
comes from a semantic hit (weighted by 0.7) or from a KG relationship
(fixed score 0.8). -/
theorem mem_fuseResults {x : FusedDoc} {sems : List VSDoc} {kgs : List KGRel}
    {n : Nat} (hx : x ∈ fuseResults sems kgs n) :
    (∃ s ∈ sems, x = semFuse s) ∨ ∃ k ∈ kgs, x = kgFuse k := by
  unfold fuseResults at hx
  have hx2 : x ∈ (sems.map semFuse ++ kgs.map kgFuse).insertionSort scoreGE :=
    (List.take_sublist n _).subset hx
  have hx3 : x ∈ sems.map semFuse ++ kgs.map kgFuse :=
    (List.perm_insertionSort scoreGE _).subset hx2
  rcases List.mem_append.mp hx3 with h | h
  · left
    rcases List.mem_map.mp h with ⟨s, hs, rfl⟩
    exact ⟨s, hs, rfl⟩
  · right
    rcases List.mem_map.mp h with ⟨k, hk, rfl⟩
    exact ⟨k, hk, rfl⟩

/-- C8 counterexample: a hit at distance 2 (possible under an L2 metric)
gets score `1 - 2 = -1`, which is outside `[0, 1]` — `semantic_search`
does not clamp. -/
theorem semantic_search_score_cex :
    (semantic_search chromaFar "q" 5).map VSDoc.score = [-1]
      ∧ ¬ (0 : ℚ) ≤ -1 := by
  constructor
  · have h : (semantic_search chromaFar "q" 5).map VSDoc.score = [1 - 2] := rfl
    rw [h]
    norm_num
  · norm_num

/-- C8 amended: every chunk returned by `semantic_search` carries score
`1 - distance`, with no clamping, so the score lies in `[0, 1]` exactly
when the reported distance lies in `[0, 1]`; under that assumption on the
semantic inputs, every fused result score also lies in `[0, 1]` (KG
entries always score 0.8). -/
theorem retrieval_scores_spec :
    (∀ (store : ChromaOracle) (q : String) (n : Nat),
        ∀ x ∈ semantic_search store q n, x.score = 1 - x.distance)
    ∧ (∀ (store : ChromaOracle) (q : String) (n : Nat),
        ∀ x ∈ semantic_search store q n,
          0 ≤ x.distance → x.distance ≤ 1 → 0 ≤ x.score ∧ x.score ≤ 1)
    ∧ (∀ (sems : List VSDoc) (kgs : List KGRel) (n : Nat),
        ∀ x ∈ fuseResults sems kgs n,
          (∀ s ∈ sems, 0 ≤ s.score ∧ s.score ≤ 1) →
          0 ≤ x.score ∧ x.score ≤ 1) := by
  have hscore : ∀ (store : ChromaOracle) (q : String) (n : Nat),
      ∀ x ∈ semantic_search store q n, x.score = 1 - x.distance := by
    intro store q n x hx
    unfold semantic_search at hx
    rcases hres : store q n with m | hits <;> rw [hres] at hx
    · simp at hx
    · rcases List.mem_map.mp hx with ⟨h, _, rfl⟩
      rfl
  refine ⟨hscore, ?_, ?_⟩
  · intro store q n x hx h0 h1
    have h := hscore store q n x hx
    constructor <;> [linarith; linarith]
  · intro sems kgs n x hx hsem
    rcases mem_fuseResults hx with ⟨s, hs, rfl⟩ | ⟨k, _, rfl⟩
    · rcases hsem s hs with ⟨h0, h1⟩
      constructor
      · have : (0 : ℚ) ≤ 7 / 10 := by norm_num
        exact mul_nonneg h0 this
      · have h2 : s.score * (7 / 10) ≤ 1 * (7 / 10) :=
          mul_le_mul_of_nonneg_right h1 (by norm_num)
        show s.score * (7 / 10) ≤ 1
        linarith
    · constructor <;> norm_num [kgFuse]

/-- Witness for C8 amended: the concrete store `chromaNear` returns a hit
at distance 1/4, whose score 3/4 the theorem places in `[0, 1]`. -/
theorem retrieval_scores_spec_witness :
    0 ≤ vsDocNear.score ∧ vsDocNear.score ≤ 1 := by
  have heq : semantic_search chromaNear "q" 5 = [vsDocNear] := by
    show [{ content := "chunk", metadata := meta0, distance := 1 / 4,
            score := 1 - 1 / 4 }] = [vsDocNear]
    norm_num [vsDocNear]
  have hmem : vsDocNear ∈ semantic_search chromaNear "q" 5 := by
    rw [heq]
    exact List.mem_singleton.mpr rfl
  exact retrieval_scores_spec.2.1 chromaNear "q" 5 vsDocNear hmem
    (by norm_num [vsDocNear]) (by norm_num [vsDocNear])

theorem pairwise_orderedInsert_tie (a : FusedDoc) :
    ∀ l : List FusedDoc, (∀ b ∈ l, tieVectorFirst a b) →
      l.Pairwise tieVectorFirst →
      (l.orderedInsert scoreGE a).Pairwise tieVectorFirst := by
  intro l
  induction l with
  | nil =>
    intro _ _
    simp [List.orderedInsert]
  | cons b l ih =>
    intro h2 hl
    simp only [List.orderedInsert]
    split
    case isTrue h =>
      exact List.Pairwise.cons h2 hl
    case isFalse h =>
      refine List.Pairwise.cons ?_
        (ih (fun w hw => h2 w (List.mem_cons_of_mem b hw)) hl.of_cons)
      intro w hw
      rcases (List.mem_orderedInsert scoreGE).mp hw with rfl | hwl
      · intro heq _
        exact h (le_of_eq heq)
      · exact List.rel_of_pairwise_cons hl hwl

theorem insertionSort_tieVectorFirst :
    ∀ sems kgs : List FusedDoc,
      (∀ a ∈ sems, a.tag = FuseTag.semantic) →
      (∀ a ∈ kgs, a.tag = FuseTag.kg_relationship) →
      ((sems ++ kgs).insertionSort scoreGE).Pairwise tieVectorFirst := by
  intro sems
  induction sems with
  | nil =>
    intro kgs _ hk
    rw [List.nil_append]
    apply List.pairwise_of_forall_mem_list
    intro a _ b hb
    have hbk := hk b ((List.perm_insertionSort scoreGE kgs).subset hb)
    intro _ htags
    rw [hbk] at htags
    exact FuseTag.noConfusion htags.2
  | cons s sems' ih =>
    intro kgs hs hk
    show ((((sems' ++ kgs).insertionSort scoreGE)).orderedInsert scoreGE
        s).Pairwise tieVectorFirst
    apply pairwise_orderedInsert_tie
    · intro w _
      intro _ htags
      have hss := hs s (List.mem_cons_self s sems')
      rw [hss] at htags
      exact FuseTag.noConfusion htags.1
    · exact ih kgs (fun a ha => hs a (List.mem_cons_of_mem s ha)) hk

/-- C3 counterexample: a fusion input producing an exact score tie between
a semantic hit and a KG relationship puts the semantic (vector) entry
first, not the graph entry: the code appends semantic results before KG
results and the sort is stable. -/
theorem hybrid_search_tie_cex :
    (hybrid_search chromaTie "q" [kgRelSample] 5).map FusedDoc.tag =
      [FuseTag.semantic, FuseTag.kg_relationship]
    ∧ (semFuse dTie).score = (kgFuse kgRelSample).score := by
  have h1 : semantic_search chromaTie "q" (5 * 2) = [dTie] := rfl
  have heval : hybrid_search chromaTie "q" [kgRelSample] 5 =
      [semFuse dTie, kgFuse kgRelSample] := by
    unfold hybrid_search
    rw [h1]
    unfold fuseResults
    show (List.orderedInsert scoreGE (semFuse dTie)
      [kgFuse kgRelSample]).take 5 = _
    simp only [List.orderedInsert]
    rw [if_pos (show scoreGE (semFuse dTie) (kgFuse kgRelSample) by
      show (kgFuse kgRelSample).score ≤ (dTie.score * (7 / 10))
      norm_num [kgFuse, dTie])]
    rfl
  rw [heval]
  refine ⟨rfl, ?_⟩
  show dTie.score * (7 / 10) = (8 : ℚ) / 10
  norm_num [dTie]

/-- C3 amended: for every fusion input, every fused KG relationship
carries the fixed base score 0.8 and every fused semantic hit carries its
similarity score multiplied by 0.7; the output is sorted in descending
score order and truncated to the requested result count; and equal-score
ties place vector (semantic) results before graph results, because the
code appends semantic results first and the sort is stable. -/
theorem hybrid_search_spec (store : ChromaOracle) (q : String)
    (kgs : List KGRel) (n : Nat) :
    (∀ x ∈ hybrid_search store q kgs n,
        x.tag = FuseTag.kg_relationship → x.score = 8 / 10)
    ∧ (∀ x ∈ hybrid_search store q kgs n, x.tag = FuseTag.semantic →
        ∃ s ∈ semantic_search store q (n * 2), x.score = s.score * (7 / 10))
    ∧ (hybrid_search store q kgs n).Sorted scoreGE
    ∧ (hybrid_search store q kgs n).length =
        min n ((semantic_search store q (n * 2)).length + kgs.length)
    ∧ (hybrid_search store q kgs n).Pairwise tieVectorFirst := by
  refine ⟨?_, ?_, ?_, ?_, ?_⟩
  · intro x hx htag
    rcases mem_fuseResults hx with ⟨s, _, rfl⟩ | ⟨k, _, rfl⟩
    · exact absurd htag (by simp [semFuse])
    · rfl
  · intro x hx htag
    rcases mem_fuseResults hx with ⟨s, hs, rfl⟩ | ⟨k, _, rfl⟩
    · exact ⟨s, hs, rfl⟩
    · exact absurd htag (by simp [kgFuse])
  · exact List.Pairwise.sublist (List.take_sublist n _)
      (List.sorted_insertionSort scoreGE _)
  · show ((((semantic_search store q (n * 2)).map semFuse
        ++ kgs.map kgFuse).insertionSort scoreGE).take n).length = _
    rw [List.length_take, (List.perm_insertionSort scoreGE _).length_eq,
      List.length_append, List.length_map, List.length_map]
  · apply List.Pairwise.sublist (List.take_sublist n _)
    apply insertionSort_tieVectorFirst
    · intro a ha
      rcases List.mem_map.mp ha with ⟨s, _, rfl⟩
      rfl
    · intro a ha
      rcases List.mem_map.mp ha with ⟨k, _, rfl⟩
      rfl

/-- Witness for C3 amended at a concrete store and KG result: the fused
KG entry scores 0.8 and the fused output of `hybrid_search` is sorted. -/
theorem hybrid_search_spec_witness :
    (kgFuse kgRelSample).score = 8 / 10
      ∧ (hybrid_search chromaNear "q" [kgRelSample] 3).Sorted scoreGE := by
  have heval : hybrid_search chromaNear "q" [kgRelSample] 3 =
      [kgFuse kgRelSample,
       semFuse { content := "chunk", metadata := meta0, distance := 1 / 4,
                 score := 1 - 1 / 4 }] := by
    unfold hybrid_search fuseResults
    show (List.orderedInsert scoreGE
      (semFuse { content := "chunk", metadata := meta0, distance := 1 / 4,
                 score := 1 - 1 / 4 })
      [kgFuse kgRelSample]).take 3 = _
    simp only [List.orderedInsert]
    rw [if_neg (show ¬ scoreGE
        (semFuse { content := "chunk", metadata := meta0, distance := 1 / 4,
                   score := 1 - 1 / 4 }) (kgFuse kgRelSample) by
      show ¬ (kgFuse kgRelSample).score ≤ ((1 : ℚ) - 1 / 4) * (7 / 10)
      norm_num [kgFuse])]
    rfl
  have h := hybrid_search_spec chromaNear "q" [kgRelSample] 3
  refine ⟨h.1 (kgFuse kgRelSample) ?_ rfl, h.2.2.1⟩
  rw [heval]
  exact List.mem_cons_self _ _

/- ---------------------------------------------------------------------
Claims C2 and C6: the graph upsert batch.
--------------------------------------------------------------------- -/

theorem any_name_iff (es : List EntityRec) (name : String) :
    es.any (fun e => e.name == name) = true ↔ name ∈ entityNames es := by
  constructor
  · intro h
    rcases List.any_eq_true.mp h with ⟨e, he, hbe⟩
    exact List.mem_map.mpr ⟨e, he, by simpa using hbe⟩
  · intro h
    rcases List.mem_map.mp h with ⟨e, he, heq⟩
    exact List.any_eq_true.mpr ⟨e, he, by simp [heq]⟩

theorem any_relKey_iff (rs : List RelRec) (t : RelationshipTriple) :
    rs.any (relKeyEq t) = true ↔ tkey t ∈ relKeys rs := by
  constructor
  · intro h
    rcases List.any_eq_true.mp h with ⟨r, hr, hbe⟩
    simp only [relKeyEq, Bool.and_eq_true, beq_iff_eq] at hbe
    exact List.mem_map.mpr ⟨r, hr, by simp [tkey, hbe.1.1, hbe.1.2, hbe.2]⟩
  · intro h
    rcases List.mem_map.mp h with ⟨r, hr, heq⟩
    simp only [tkey, Prod.mk.injEq] at heq
    apply List.any_eq_true.mpr
    exact ⟨r, hr, by simp [relKeyEq, heq.1, heq.2.1, heq.2.2]⟩

theorem entityNames_mergeEntity_of_mem (now : Nat) (name ty : String)
    (es : List EntityRec) (h : name ∈ entityNames es) :
    entityNames (mergeEntity now name ty es) = entityNames es
      ∧ (mergeEntity now name ty es).length = es.length := by
  have hany : es.any (fun e => e.name == name) = true :=
    (any_name_iff es name).mpr h
  unfold mergeEntity
  rw [if_pos hany]
  constructor
  · unfold entityNames
    rw [List.map_map]
    apply List.map_congr_left
    intro e _
    simp only [Function.comp_apply]
    split <;> rfl
  · exact List.length_map es _

theorem mem_entityNames_mergeEntity (now : Nat) (name ty : String)
    (es : List EntityRec) :
    name ∈ entityNames (mergeEntity now name ty es) := by
  by_cases hany : es.any (fun e => e.name == name) = true
  · unfold mergeEntity
    rw [if_pos hany]
    rcases List.any_eq_true.mp hany with ⟨e, he, hbe⟩
    have hname : e.name = name := by simpa using hbe
    apply List.mem_map.mpr
    refine ⟨(if e.name == name then
        { e with entity_type := ty, last_updated := now } else e),
      List.mem_map_of_mem _ he, ?_⟩
    rw [if_pos hbe]
    exact hname
  · unfold mergeEntity
    rw [if_neg hany]
    unfold entityNames
    rw [List.map_append]
    exact List.mem_append.mpr (Or.inr (by simp))

theorem entityNames_mergeEntity_mono (now : Nat) (name ty x : String)
    (es : List EntityRec) (h : x ∈ entityNames es) :
    x ∈ entityNames (mergeEntity now name ty es) := by
  by_cases hany : es.any (fun e => e.name == name) = true
  · rw [(entityNames_mergeEntity_of_mem now name ty es
      ((any_name_iff es name).mp hany)).1]
    exact h
  · unfold mergeEntity
    rw [if_neg hany]
    unfold entityNames
    rw [List.map_append]
    exact List.mem_append.mpr (Or.inl h)

theorem relKeys_mergeRelationship_of_mem (now : Nat) (t : RelationshipTriple)
    (rs : List RelRec) (h : tkey t ∈ relKeys rs) :
    relKeys (mergeRelationship now t rs) = relKeys rs
      ∧ (mergeRelationship now t rs).length = rs.length := by
  have hany : rs.any (relKeyEq t) = true := (any_relKey_iff rs t).mpr h
  unfold mergeRelationship
  rw [if_pos hany]
  constructor
  · unfold relKeys
    rw [List.map_map]
    apply List.map_congr_left
    intro r _
    simp only [Function.comp_apply]
    split <;> rfl
  · exact List.length_map rs _

theorem mem_relKeys_mergeRelationship (now : Nat) (t : RelationshipTriple)
    (rs : List RelRec) :
    tkey t ∈ relKeys (mergeRelationship now t rs) := by
  by_cases hany : rs.any (relKeyEq t) = true
  · unfold mergeRelationship
    rw [if_pos hany]
    rcases List.any_eq_true.mp hany with ⟨r, hr, hbe⟩
    have hkey : (r.subject_name, r.rel_type, r.object_name) = tkey t := by
      have := (List.any_eq_true.mpr ⟨r, hr, hbe⟩)
      simp only [relKeyEq, Bool.and_eq_true, beq_iff_eq] at hbe
      simp [tkey, hbe.1.1, hbe.1.2, hbe.2]
    apply List.mem_map.mpr
    refine ⟨(if relKeyEq t r then
        { r with evidence := t.evidence_span, source_title := "",
                 source_url := "", doc_id := "", confidence := 9 / 10,
                 created_at := now } else r),
      List.mem_map_of_mem _ hr, ?_⟩
    rw [if_pos hbe]
    exact hkey
  · unfold mergeRelationship
    rw [if_neg hany]
    unfold relKeys
    rw [List.map_append]
    exact List.mem_append.mpr (Or.inr (by simp [tkey]))

theorem relKeys_mergeRelationship_mono (now : Nat) (t : RelationshipTriple)
    (rs : List RelRec) (k : String × String × String) (h : k ∈ relKeys rs) :
    k ∈ relKeys (mergeRelationship now t rs) := by
  by_cases hany : rs.any (relKeyEq t) = true
  · rw [(relKeys_mergeRelationship_of_mem now t rs
      ((any_relKey_iff rs t).mp hany)).1]
    exact h
  · unfold mergeRelationship
    rw [if_neg hany]
    unfold relKeys
    rw [List.map_append]
    exact List.mem_append.mpr (Or.inl h)

theorem applyTriple_preserves (now : Nat) (s : GraphStore)
    (t : RelationshipTriple)
    (hsub : t.subject ∈ entityNames s.entities)
    (hobj : t.object ∈ entityNames s.entities)
    (hkey : tkey t ∈ relKeys s.rels) :
    entityNames (applyTriple now s t).entities = entityNames s.entities
      ∧ relKeys (applyTriple now s t).rels = relKeys s.rels
      ∧ (applyTriple now s t).entities.length = s.entities.length
      ∧ (applyTriple now s t).rels.length = s.rels.length := by
  obtain ⟨h1names, h1len⟩ := entityNames_mergeEntity_of_mem now t.subject
    (infer_entity_type t.subject) s.entities hsub
  obtain ⟨h2names, h2len⟩ := entityNames_mergeEntity_of_mem now t.object
    (infer_entity_type t.object)
    (mergeEntity now t.subject (infer_entity_type t.subject) s.entities)
    (by rw [h1names]; exact hobj)
  obtain ⟨h3keys, h3len⟩ := relKeys_mergeRelationship_of_mem now t s.rels hkey
  exact ⟨h2names.trans h1names, h3keys, h2len.trans h1len, h3len⟩

theorem applyTriple_mem (now : Nat) (s : GraphStore) (t : RelationshipTriple) :
    t.subject ∈ entityNames (applyTriple now s t).entities
      ∧ t.object ∈ entityNames (applyTriple now s t).entities
      ∧ tkey t ∈ relKeys (applyTriple now s t).rels :=
  ⟨entityNames_mergeEntity_mono _ _ _ _ _ (mem_entityNames_mergeEntity _ _ _ _),
   mem_entityNames_mergeEntity _ _ _ _,
   mem_relKeys_mergeRelationship _ _ _⟩

theorem applyTriple_mono (now : Nat) (s : GraphStore) (t : RelationshipTriple) :
    (∀ x, x ∈ entityNames s.entities →
        x ∈ entityNames (applyTriple now s t).entities)
      ∧ (∀ k, k ∈ relKeys s.rels → k ∈ relKeys (applyTriple now s t).rels) :=
  ⟨fun _ hx => entityNames_mergeEntity_mono _ _ _ _ _
      (entityNames_mergeEntity_mono _ _ _ _ _ hx),
   fun _ hk => relKeys_mergeRelationship_mono _ _ _ _ hk⟩

theorem runBatch_cons (ok : RelationshipTriple → Bool) (now : Nat)
    (s : GraphStore) (t : RelationshipTriple) (ts : List RelationshipTriple) :
    runBatch ok now s (t :: ts) =
      runBatch ok now (if ok t then applyTriple now s t else s) ts := rfl

theorem runBatch_mono (ok : RelationshipTriple → Bool) (now : Nat)
    (ts : List RelationshipTriple) : ∀ s : GraphStore,
    (∀ x, x ∈ entityNames s.entities →
        x ∈ entityNames (runBatch ok now s ts).entities)
      ∧ (∀ k, k ∈ relKeys s.rels → k ∈ relKeys (runBatch ok now s ts).rels) := by
  induction ts with
  | nil => exact fun s => ⟨fun x hx => hx, fun k hk => hk⟩
  | cons t ts ih =>
    intro s
    constructor
    · intro x hx
      rw [runBatch_cons]
      by_cases hok : ok t = true
      · rw [if_pos hok]
        exact (ih _).1 x ((applyTriple_mono now s t).1 x hx)
      · rw [if_neg hok]
        exact (ih _).1 x hx
    · intro k hk
      rw [runBatch_cons]
      by_cases hok : ok t = true
      · rw [if_pos hok]
        exact (ih _).2 k ((applyTriple_mono now s t).2 k hk)
      · rw [if_neg hok]
        exact (ih _).2 k hk

theorem runBatch_covers (ok : RelationshipTriple → Bool) (now : Nat)
    (ts : List RelationshipTriple) : ∀ s : GraphStore,
    ∀ t ∈ ts, ok t = true →
      t.subject ∈ entityNames (runBatch ok now s ts).entities
        ∧ t.object ∈ entityNames (runBatch ok now s ts).entities
        ∧ tkey t ∈ relKeys (runBatch ok now s ts).rels := by
  induction ts with
  | nil => exact fun s t ht => absurd ht (List.not_mem_nil t)
  | cons u ts ih =>
    intro s t ht hok
    rw [runBatch_cons]
    rcases List.mem_cons.mp ht with rfl | hts
    · rw [if_pos hok]
      obtain ⟨h1, h2, h3⟩ := applyTriple_mem now s t
      exact ⟨(runBatch_mono ok now ts _).1 _ h1,
             (runBatch_mono ok now ts _).1 _ h2,
             (runBatch_mono ok now ts _).2 _ h3⟩
    · exact ih _ t hts hok

theorem runBatch_preserves (ok : RelationshipTriple → Bool) (now : Nat)
    (ts : List RelationshipTriple) : ∀ s : GraphStore,
    (∀ t ∈ ts, ok t = true →
        t.subject ∈ entityNames s.entities
          ∧ t.object ∈ entityNames s.entities
          ∧ tkey t ∈ relKeys s.rels) →
    entityNames (runBatch ok now s ts).entities = entityNames s.entities
      ∧ relKeys (runBatch ok now s ts).rels = relKeys s.rels
      ∧ (runBatch ok now s ts).entities.length = s.entities.length
      ∧ (runBatch ok now s ts).rels.length = s.rels.length := by
  induction ts with
  | nil => exact fun s _ => ⟨rfl, rfl, rfl, rfl⟩
  | cons u ts ih =>
    intro s h
    rw [runBatch_cons]
    by_cases hok : ok u = true
    · rw [if_pos hok]
      obtain ⟨hsub, hobj, hkey⟩ := h u (List.mem_cons_self u ts) hok
      obtain ⟨e1, k1, l1, l2⟩ := applyTriple_preserves now s u hsub hobj hkey
      have h' : ∀ t ∈ ts, ok t = true →
          t.subject ∈ entityNames (applyTriple now s u).entities
            ∧ t.object ∈ entityNames (applyTriple now s u).entities
            ∧ tkey t ∈ relKeys (applyTriple now s u).rels := by
        intro t ht hokt
        obtain ⟨a, b, c⟩ := h t (List.mem_cons_of_mem u ht) hokt
        exact ⟨by rw [e1]; exact a, by rw [e1]; exact b, by rw [k1]; exact c⟩
      obtain ⟨E, K, L1, L2⟩ := ih _ h'
      exact ⟨E.trans e1, K.trans k1, L1.trans l1, L2.trans l2⟩
    · rw [if_neg hok]
      exact ih _ (fun t ht hokt => h t (List.mem_cons_of_mem u ht) hokt)

/-- C2: re-running `populate_graph` with the identical triple list (and a
possibly different timestamp) leaves the post-batch entity count and
relationship count reported by the count queries unchanged: upsert is
idempotent under the identity keys entity `name` and
`(subject, relationship, object)`. -/
theorem populate_graph_idempotent (ok : RelationshipTriple → Bool)
    (now1 now2 : Nat) (s : GraphStore) (ts : List RelationshipTriple) :
    (populate_graph ok now2 (populate_graph ok now1 s ts).1 ts).2.entities_created
        = (populate_graph ok now1 s ts).2.entities_created
    ∧ (populate_graph ok now2 (populate_graph ok now1 s ts).1 ts).2.relationships_created
        = (populate_graph ok now1 s ts).2.relationships_created := by
  have hcov := runBatch_covers ok now1 ts s
  have hp := runBatch_preserves ok now2 ts (runBatch ok now1 s ts) hcov
  exact ⟨hp.2.2.1, hp.2.2.2⟩

/-- C6: a per-triple failure in the batch loop does not abort the rest —
the final store equals the one obtained by applying exactly the
successful triples — and the report's entity and relationship counts are
the post-batch store totals, with `triples_processed` (not the counts)
recording the submitted batch size; concretely, submitting the same
sample triple twice reports 2 entities and 1 relationship for 2 triples
processed. -/
theorem populate_graph_partial_failure (ok : RelationshipTriple → Bool)
    (now : Nat) (s : GraphStore) (ts : List RelationshipTriple) :
    (populate_graph ok now s ts).1 =
        (populate_graph (fun _ => true) now s (ts.filter ok)).1
    ∧ (populate_graph ok now s ts).2.entities_created =
        (populate_graph ok now s ts).1.entities.length
    ∧ (populate_graph ok now s ts).2.relationships_created =
        (populate_graph ok now s ts).1.rels.length
    ∧ (populate_graph ok now s ts).2.triples_processed = ts.length
    ∧ (populate_graph (fun _ => true) 0 ⟨[], []⟩ [trSample, trSample]).2 =
        { entities_created := 2, relationships_created := 1,
          triples_processed := 2 } := by
  refine ⟨?_, rfl, rfl, rfl, by decide⟩
  show runBatch ok now s ts = runBatch (fun _ => true) now s (ts.filter ok)
  induction ts generalizing s with
  | nil => rfl
  | cons t ts ih =>
    by_cases hok : ok t = true
    · rw [runBatch_cons, if_pos hok, List.filter_cons_of_pos hok,
        runBatch_cons, if_pos rfl]
      exact ih _
    · rw [runBatch_cons, if_neg hok,
        List.filter_cons_of_neg (by simpa using hok)]
      exact ih _
